import Mathlib

/-!
Verification development for the DevResourceHub API server
(`src/server/index.ts`): the multi-provider resource aggregation layer.

The TypeScript handler is shallowly embedded below.  JavaScript numbers
appearing in the handler (page, pageSize, totals) are modelled by `JSNum`:
an integer, NaN, or a signed infinity.  All numeric values actually
produced by the handler on integer inputs are integers, but `Number(...)`
parsing of query parameters can produce NaN, and division can produce
infinities, so the model keeps those cases with JavaScript's propagation
rules.  (Non-integral doubles are outside the model; no claim depends on
them.)  Upstream HTTP calls are modelled by a `World` record of functions
returning `Except Unit _`: `.error ()` models a rejected axios promise.
-/

namespace DevHub

/-- Model of a JavaScript number as used by the handler: an integer, NaN,
or a signed infinity. -/
inductive JSNum where
  | nan : JSNum
  | posInf : JSNum
  | negInf : JSNum
  | int : Int → JSNum
deriving DecidableEq, Repr

/-- JavaScript truthiness of a number: NaN and 0 are falsy. -/
def jsTruthy : JSNum → Bool
  | .nan => false
  | .int 0 => false
  | _ => true

/-- `a || b` on numbers: `b` when `a` is falsy. -/
def jsOrNum (a b : JSNum) : JSNum := if jsTruthy a then a else b

/-- JavaScript addition with NaN/infinity propagation. -/
def jsAdd : JSNum → JSNum → JSNum
  | .nan, _ => .nan
  | _, .nan => .nan
  | .posInf, .negInf => .nan
  | .negInf, .posInf => .nan
  | .posInf, _ => .posInf
  | _, .posInf => .posInf
  | .negInf, _ => .negInf
  | _, .negInf => .negInf
  | .int a, .int b => .int (a + b)

/-- JavaScript negation. -/
def jsNeg : JSNum → JSNum
  | .nan => .nan
  | .posInf => .negInf
  | .negInf => .posInf
  | .int a => .int (-a)

/-- JavaScript subtraction. -/
def jsSub (a b : JSNum) : JSNum := jsAdd a (jsNeg b)

/-- JavaScript multiplication (`Infinity * 0 = NaN`). -/
def jsMul : JSNum → JSNum → JSNum
  | .nan, _ => .nan
  | _, .nan => .nan
  | .posInf, .posInf => .posInf
  | .posInf, .negInf => .negInf
  | .negInf, .posInf => .negInf
  | .negInf, .negInf => .posInf
  | .posInf, .int b => if b = 0 then .nan else if 0 < b then .posInf else .negInf
  | .int a, .posInf => if a = 0 then .nan else if 0 < a then .posInf else .negInf
  | .negInf, .int b => if b = 0 then .nan else if 0 < b then .negInf else .posInf
  | .int a, .negInf => if a = 0 then .nan else if 0 < a then .negInf else .posInf
  | .int a, .int b => .int (a * b)

/-- `Math.max` restricted to two arguments: NaN-propagating maximum. -/
def jsMax : JSNum → JSNum → JSNum
  | .nan, _ => .nan
  | _, .nan => .nan
  | .posInf, _ => .posInf
  | _, .posInf => .posInf
  | .negInf, b => b
  | a, .negInf => a
  | .int a, .int b => .int (max a b)

/-- `Math.min` restricted to two arguments: NaN-propagating minimum. -/
def jsMin : JSNum → JSNum → JSNum
  | .nan, _ => .nan
  | _, .nan => .nan
  | .negInf, _ => .negInf
  | _, .negInf => .negInf
  | .posInf, b => b
  | a, .posInf => a
  | .int a, .int b => .int (min a b)

/-- `Math.floor(a / b)` on JSNum values (real division then floor). -/
def jsDivFloor : JSNum → JSNum → JSNum
  | .nan, _ => .nan
  | _, .nan => .nan
  | .posInf, .posInf => .nan
  | .posInf, .negInf => .nan
  | .negInf, .posInf => .nan
  | .negInf, .negInf => .nan
  | .posInf, .int b => if b = 0 then .posInf else if 0 < b then .posInf else .negInf
  | .negInf, .int b => if b = 0 then .negInf else if 0 < b then .negInf else .posInf
  | .int _, .posInf => .int 0
  | .int _, .negInf => .int 0
  | .int a, .int b =>
    if b = 0 then (if a = 0 then .nan else if 0 < a then .posInf else .negInf)
    else .int (a.fdiv b)

/-- `Math.ceil(a / b)` on JSNum values (real division then ceiling).
For integers with `b ≠ 0`, `⌈a / b⌉ = -((-a).fdiv b)`. -/
def jsDivCeil : JSNum → JSNum → JSNum
  | .nan, _ => .nan
  | _, .nan => .nan
  | .posInf, .posInf => .nan
  | .posInf, .negInf => .nan
  | .negInf, .posInf => .nan
  | .negInf, .negInf => .nan
  | .posInf, .int b => if b = 0 then .posInf else if 0 < b then .posInf else .negInf
  | .negInf, .int b => if b = 0 then .negInf else if 0 < b then .negInf else .posInf
  | .int _, .posInf => .int 0
  | .int _, .negInf => .int 0
  | .int a, .int b =>
    if b = 0 then (if a = 0 then .nan else if 0 < a then .posInf else .negInf)
    else .int (-((-a).fdiv b))

/-- JavaScript `>` comparison (false whenever NaN is involved). -/
def jsGt : JSNum → JSNum → Bool
  | .nan, _ => false
  | _, .nan => false
  | .posInf, .posInf => false
  | .posInf, _ => true
  | _, .posInf => false
  | .negInf, _ => false
  | .int _, .negInf => true
  | .int a, .int b => decide (b < a)

/-- `Number.isFinite`. -/
def jsFinite : JSNum → Bool
  | .int _ => true
  | _ => false

/-- `ToIntegerOrInfinity` followed by the index clamping of
`Array.prototype.slice`: NaN becomes 0, negative indices count from the
end, and the result is clamped to `[0, len]`. -/
def jsSliceIdx (len : Nat) : JSNum → Nat
  | .nan => 0
  | .posInf => len
  | .negInf => 0
  | .int n => if n < 0 then ((len : Int) + n).toNat else min n.toNat len

/-- `l.slice(s, e)` with JavaScript index semantics. -/
def jsSlice {α : Type} (l : List α) (s e : JSNum) : List α :=
  let k := jsSliceIdx l.length s
  let fin := jsSliceIdx l.length e
  (l.take fin).drop k

/-- Render a JSNum the way JavaScript template literals do (used in
synthesised fallback ids). -/
def jsNumToString : JSNum → String
  | .nan => "NaN"
  | .posInf => "Infinity"
  | .negInf => "-Infinity"
  | .int a => toString a

/-- `Number(s)` for the string grammar the model supports: an optional
sign followed by decimal digits parses to an integer, the empty string
parses to 0, and anything else to NaN.  (Fractional, hex and whitespace
forms of the JS grammar are outside the model.) -/
def strToNumber (s : String) : JSNum :=
  let digitsToInt : List Char → Int :=
    fun l => (l.foldl (fun acc c => acc * 10 + (c.toNat - 48)) 0 : Nat)
  match s.toList with
  | [] => .int 0
  | '-' :: rest =>
    if rest ≠ [] ∧ rest.all Char.isDigit then .int (-(digitsToInt rest)) else .nan
  | l => if l.all Char.isDigit then .int (digitsToInt l) else .nan

/-- `Number(param || default)` applied to an optional query parameter:
an absent or empty parameter yields the default. -/
def jsParseNum (o : Option String) (dflt : Int) : JSNum :=
  match o with
  | none => .int dflt
  | some s => if s = "" then .int dflt else strToNumber s

/-- Truthiness of an optional string (undefined and "" are falsy). -/
def truthyOS : Option String → Bool
  | none => false
  | some s => decide (s ≠ "")

/-- `a || b` where `a` is an optional string and `b` a plain string. -/
def jsStrOr (a : Option String) (b : String) : String :=
  match a with
  | none => b
  | some s => if s = "" then b else s

/-- `a || b` on two plain strings. -/
def jsStrOrD (a b : String) : String := if a = "" then b else a

/-- `a || b` on optional strings, keeping the second operand as-is when
the first is falsy (so `x || undefined` can still be undefined). -/
def jsOrOS (a b : Option String) : Option String :=
  match a with
  | none => b
  | some s => if s = "" then b else some s

/-- `s.toLowerCase()`, ASCII range (the same range core `Char.toLower`
handles); written over the character list so it evaluates by kernel
reduction. -/
def strToLower (s : String) : String := String.mk (s.data.map Char.toLower)

/-- Is `sub` a prefix of `l`? -/
def startsWithSeq (sub l : List Char) : Bool :=
  match sub, l with
  | [], _ => true
  | _ :: _, [] => false
  | c :: cs, d :: ds => c == d && startsWithSeq cs ds

/-- Is `sub` a contiguous subsequence of `l`? -/
def containsSeq (sub : List Char) : List Char → Bool
  | [] => sub.isEmpty
  | c :: rest => startsWithSeq sub (c :: rest) || containsSeq sub rest

/-- `s.includes(sub)` for strings. -/
def strIncludes (s sub : String) : Bool := containsSeq sub.toList s.toList

/-- Characters treated as `\s` by the model (enough for the genre slug). -/
def isWsChar (c : Char) : Bool := c = ' ' || c = '\t' || c = '\n' || c = '\r'

/-- `replace(/\s+/g, '-')`: each run of whitespace becomes one dash.
The flag records whether the previous character was whitespace. -/
def collapseWsAux : Bool → List Char → List Char
  | _, [] => []
  | prevWs, c :: rest =>
    if isWsChar c then
      if prevWs then collapseWsAux true rest
      else '-' :: collapseWsAux true rest
    else c :: collapseWsAux false rest

/-- `s.replace(/\s+/g, '-')`. -/
def collapseWs (s : String) : String := String.mk (collapseWsAux false s.toList)

/-- `s.trim()` (whitespace as in `isWsChar`). -/
def strTrim (s : String) : String :=
  String.mk (((s.data.dropWhile isWsChar).reverse.dropWhile isWsChar).reverse)

/-- Splitting accumulator for `split(',')`: `acc` holds the current
segment reversed. -/
def splitCommaAux (acc : List Char) : List Char → List String
  | [] => [String.mk acc.reverse]
  | c :: rest =>
    if c = ',' then String.mk acc.reverse :: splitCommaAux [] rest
    else splitCommaAux (c :: acc) rest

/-- `s.split(',')`. -/
def splitComma (s : String) : List String := splitCommaAux [] s.data

/-- Does `s` end with `suffix`? -/
def strEndsWith (s suffix : String) : Bool :=
  startsWithSeq suffix.data.reverse s.data.reverse

/-- The unified Resource record (`interface Resource`). The optional
`rating` is an opaque pass-through value, modelled as a rational. -/
structure Resource where
  id : String
  title : String
  description : String
  url : String
  type : String
  language : String
  framework : Option String
  difficulty : String
  tags : List String
  author : Option String
  rating : Option ℚ
  bookmarked : Option Bool
deriving DecidableEq, Repr

/-- The static in-memory fallback catalog (`fallbackData`). -/
def fallbackData : List Resource :=
  [ { id := "ex1"
    , title := "React Official Docs"
    , description := "The official React documentation with guides and API references."
    , url := "https://react.dev/learn"
    , type := "doc"
    , language := "javascript"
    , framework := some "react"
    , difficulty := "beginner"
    , tags := ["official", "docs"]
    , author := some "React Team"
    , rating := some ((49 : ℚ) / 10)
    , bookmarked := none }
  , { id := "ex2"
    , title := "Docker Deep Dive"
    , description := "A comprehensive guide to Docker concepts and best practices."
    , url := "https://docs.docker.com/"
    , type := "doc"
    , language := "docker"
    , framework := none
    , difficulty := "intermediate"
    , tags := ["containers", "devops"]
    , author := none
    , rating := some ((47 : ℚ) / 10)
    , bookmarked := none } ]

/-- The filter/pagination parameter object passed to `filterAndPaginate`
(and, field for field, the processed request parameters). -/
structure FilterQuery where
  query : String
  type : String
  language : String
  framework : String
  difficulty : String
  tags : List String
  page : JSNum
  pageSize : JSNum
deriving DecidableEq, Repr

/-- Free-text predicate of the filter stage: case-insensitive substring
match on title, description or any tag (`ql` is the lowercased query). -/
def matchesText (ql : String) (r : Resource) : Bool :=
  strIncludes (strToLower r.title) ql ||
  strIncludes (strToLower r.description) ql ||
  r.tags.any (fun t => strIncludes (strToLower t) ql)

/-- One conditional filter stage: filter only when the guard holds. -/
def condFilter (b : Bool) (f : Resource → Bool) (l : List Resource) : List Resource :=
  if b then l.filter f else l

/-- The filter stage of `filterAndPaginate` (lines 113–128): free-text
query, then type, language, framework, difficulty and tags predicates,
each enabled by the corresponding guard. -/
def applyFilters (p : FilterQuery) (data : List Resource) : List Resource :=
  let ql := strToLower p.query
  let f1 := condFilter (p.query != "") (matchesText ql) data
  let f2 := condFilter (p.type != "" && p.type != "all") (fun r => r.type == p.type) f1
  let f3 := condFilter (p.language != "" && p.language != "all") (fun r => r.language == p.language) f2
  let f4 := condFilter (p.framework != "" && p.framework != "all")
    (fun r => r.framework == some p.framework) f3
  let f5 := condFilter (p.difficulty != "" && p.difficulty != "all")
    (fun r => r.difficulty == p.difficulty) f4
  condFilter (decide (0 < p.tags.length)) (fun r => p.tags.any (fun t => r.tags.contains t)) f5

/-- The PaginatedResult shape returned by every branch of the handler. -/
structure Paginated where
  items : List Resource
  total : JSNum
  page : JSNum
  pageSize : JSNum
  totalPages : JSNum
deriving DecidableEq, Repr

/-- `filterAndPaginate` (lines 91–136): filter, then an offset/limit
slice, with `totalPages = Math.max(1, Math.ceil(total / pageSize))`. -/
def filterAndPaginate (data : List Resource) (p : FilterQuery) : Paginated :=
  let filtered := applyFilters p data
  let total : Int := filtered.length
  let start := jsMul (jsSub p.page (.int 1)) p.pageSize
  let stop := jsAdd start p.pageSize
  { items := jsSlice filtered start stop
  , total := .int total
  , page := p.page
  , pageSize := p.pageSize
  , totalPages := jsMax (.int 1) (jsDivCeil (.int total) p.pageSize) }

/-! ### Provider-native schemas and mappers -/

/-- `detectTypeFromUrl` (lines 61–68): ordered pattern rules, first
match wins. -/
def detectTypeFromUrl (url : Option String) : String :=
  match url with
  | none => "article"
  | some u0 =>
    if u0 = "" then "article"
    else
      let u := strToLower u0
      if strEndsWith u ".pdf" || strIncludes u ".pdf?" then "pdf"
      else if strIncludes u "youtube.com" || strIncludes u "youtu.be" ||
          strIncludes u "vimeo.com" || strIncludes u "dailymotion.com" then "video"
      else if strIncludes u "/docs" || strIncludes u "docs." ||
          strIncludes u "developer.mozilla.org" || strIncludes u "nodejs.org" ||
          strIncludes u "react.dev" || strIncludes u "angular.io" ||
          strIncludes u "vuejs.org" then "doc"
      else "article"

/-- DEV.to article author object (only the fields the mapper reads). -/
structure DevtoUser where
  name : Option String
  username : Option String
deriving DecidableEq, Repr

/-- DEV.to article schema (only the fields the mapper reads).  An
`Option` field models a possibly-absent JSON property. -/
structure DevtoArticle where
  id : Int
  title : Option String
  description : Option String
  body_text : Option String
  canonical_url : Option String
  url : Option String
  path : Option String
  tag_list : Option (List String)
  tags : Option String
  user : Option DevtoUser
deriving DecidableEq, Repr

/-- `mapDevToArticleToResource` (lines 70–88). -/
def mapDevToArticleToResource (article : DevtoArticle) : Resource :=
  let pathUrl : Option String :=
    match article.path with
    | none => none
    | some p => if p = "" then none else some ("https://dev.to" ++ p)
  let primaryUrl := jsOrOS article.canonical_url (jsOrOS article.url pathUrl)
  { id := toString article.id
  , title := article.title.getD "Untitled"
  , description := (jsOrOS article.description article.body_text).getD ""
  , url := jsStrOr primaryUrl "#"
  , type := detectTypeFromUrl primaryUrl
  , language := "general"
  , framework := none
  , difficulty := "intermediate"
  , tags :=
      match article.tag_list with
      | some l => l
      | none =>
        match article.tags with
        | some s => ((splitComma s).map strTrim).filter (fun t => t != "")
        | none => []
  , author :=
      match article.user with
      | none => none
      | some u => jsOrOS u.name (jsOrOS u.username none)
  , rating := none
  , bookmarked := none }

/-- A DEV.to-shaped axios response body: either a bare array or an
object carrying one of the `items` / `result` / `results` arrays. -/
inductive DevtoResp where
  | arr (l : List DevtoArticle)
  | obj (items result results : Option (List DevtoArticle))
deriving DecidableEq, Repr

/-- Mixed-mode extraction (lines 183–185):
`Array.isArray(data) ? data : (data.items || data.result || data.results || [])`.
A present array is truthy even when empty. -/
def extractMixed : DevtoResp → List DevtoArticle
  | .arr l => l
  | .obj items result results => ((items <|> result) <|> results).getD []

/-- Default-branch extraction (line 538):
`Array.isArray(data) ? data : (data.items || [])`. -/
def extractDefault : DevtoResp → List DevtoArticle
  | .arr l => l
  | .obj items _ _ => items.getD []

/-- YouTube search result id object. -/
structure YtId where
  videoId : Option String
deriving DecidableEq, Repr

/-- YouTube search result snippet object. -/
structure YtSnippet where
  title : Option String
  description : Option String
  channelTitle : Option String
deriving DecidableEq, Repr

/-- One YouTube search result. -/
structure YtItem where
  id : Option YtId
  snippet : Option YtSnippet
deriving DecidableEq, Repr

/-- A YouTube search response body. -/
structure YtResp where
  items : Option (List YtItem)
  nextPageToken : Option String
deriving DecidableEq, Repr

/-- The guard `it.id?.videoId && it.snippet` of both YouTube mappers. -/
def ytKeep (it : YtItem) : Bool :=
  (match it.id with
   | some i => truthyOS i.videoId
   | none => false) &&
  it.snippet.isSome

/-- Body of the YouTube item mapper (identical in the mixed branch,
lines 199–209, and the youtube branch, lines 477–492); only applied to
items passing `ytKeep`. -/
def mapYtItem (it : YtItem) : Resource :=
  let vid := (it.id.bind YtId.videoId).getD ""
  { id := vid
  , title := jsStrOr (it.snippet.bind YtSnippet.title) "Untitled"
  , description := jsStrOr (it.snippet.bind YtSnippet.description) ""
  , url := "https://www.youtube.com/watch?v=" ++ vid
  , type := "video"
  , language := "general"
  , framework := none
  , difficulty := "intermediate"
  , tags := []
  , author := it.snippet.bind YtSnippet.channelTitle
  , rating := none
  , bookmarked := none }

/-- Filter-then-map step shared by both YouTube call sites. -/
def mapYtItems (l : List YtItem) : List Resource :=
  (l.filter ytKeep).map mapYtItem

/-- Google Books `accessInfo.pdf` / `accessInfo.epub` object. -/
structure GbFormatInfo where
  isAvailable : Option Bool
  downloadLink : Option String
deriving DecidableEq, Repr

/-- Google Books `accessInfo` object. -/
structure GbAccess where
  pdf : Option GbFormatInfo
  epub : Option GbFormatInfo
  webReaderLink : Option String
deriving DecidableEq, Repr

/-- One Google Books industry identifier. -/
structure GbIndustryId where
  identifier : Option String
deriving DecidableEq, Repr

/-- Google Books `volumeInfo` object. -/
structure GbVolumeInfo where
  title : Option String
  subtitle : Option String
  description : Option String
  infoLink : Option String
  canonicalVolumeLink : Option String
  language : Option String
  authors : Option (List String)
  categories : Option (List String)
  industryIdentifiers : Option (List GbIndustryId)
deriving DecidableEq, Repr

/-- One Google Books volume. -/
structure GbItem where
  id : Option String
  volumeInfo : Option GbVolumeInfo
  accessInfo : Option GbAccess
deriving DecidableEq, Repr

/-- A Google Books response body. -/
structure GbResp where
  totalItems : Option JSNum
  items : Option (List GbItem)
deriving DecidableEq, Repr

/-- The empty `volumeInfo` object substituted by `it.volumeInfo || {}`. -/
def GbVolumeInfo.empty : GbVolumeInfo :=
  ⟨none, none, none, none, none, none, none, none, none⟩

/-- The empty `accessInfo` object substituted by `it.accessInfo || {}`. -/
def GbAccess.empty : GbAccess := ⟨none, none, none⟩

/-- The Google Books volume mapper (written out once; the mixed branch,
lines 220–238, and the googlebooks branch, lines 278–300, construct the
same Resource field for field). -/
def mapGbItem (it : GbItem) : Resource :=
  let vol := it.volumeInfo.getD GbVolumeInfo.empty
  let access := it.accessInfo.getD GbAccess.empty
  let pdfAvailable := ((access.pdf.bind GbFormatInfo.isAvailable).getD false)
  let infoLink := jsOrOS vol.infoLink (jsOrOS access.webReaderLink vol.canonicalVolumeLink)
  let downloadLink := jsOrOS (access.pdf.bind GbFormatInfo.downloadLink)
    (jsOrOS (access.epub.bind GbFormatInfo.downloadLink) infoLink)
  let authors := vol.authors.getD []
  { id := (jsOrOS it.id (jsOrOS ((vol.industryIdentifiers.bind List.head?).bind
      GbIndustryId.identifier) (jsOrOS infoLink vol.title))).getD "undefined"
  , title := jsStrOr vol.title "Untitled"
  , description := (jsOrOS vol.subtitle vol.description).getD ""
  , url := jsStrOr (jsOrOS downloadLink infoLink) "#"
  , type := if pdfAvailable then "pdf" else "book"
  , language := jsStrOr vol.language "general"
  , framework := none
  , difficulty := "intermediate"
  , tags := (vol.categories.getD []).take 5
  , author := authors.head?
  , rating := none
  , bookmarked := none }

/-- FreeBooks (RapidAPI) book schema: every field the defensive mapper
probes, each possibly absent. -/
structure FbBook where
  id : Option String
  isbn : Option String
  title : Option String
  name : Option String
  bookTitle : Option String
  description : Option String
  desc : Option String
  summary : Option String
  url : Option String
  link : Option String
  bookLink : Option String
  download : Option String
  source : Option String
  author : Option String
  writer : Option String
  creator : Option String
  genre : Option String
  category : Option String
deriving DecidableEq, Repr

/-- A FreeBooks response body: a bare array, or an object with a `data`
or `items` array, or anything else (yielding no books). -/
inductive FbResp where
  | arr (l : List FbBook)
  | obj (dataField itemsField : Option (List FbBook))
deriving DecidableEq, Repr

/-- Extraction of `booksRaw` (lines 325–328). -/
def fbBooksRaw : FbResp → List FbBook
  | .arr l => l
  | .obj dataField itemsField =>
    match dataField with
    | some l => l
    | none => itemsField.getD []

/-- Push `String(x)` when `x` is truthy (the `if (b.genre) tagsOut.push`
pattern). -/
def pushIfTruthy (o : Option String) : List String :=
  match o with
  | some s => if s = "" then [] else [s]
  | none => []

/-- The FreeBooks book mapper (lines 330–351); `idx` is the array
index used in the synthesised id. -/
def mapFbBook (genre : String) (pageNum : JSNum) (idx : Nat) (b : FbBook) : Resource :=
  { id := (jsOrOS b.id b.isbn).getD
      (genre ++ "-" ++ jsNumToString pageNum ++ "-" ++ toString idx)
  , title := jsStrOr (jsOrOS b.title (jsOrOS b.name b.bookTitle)) "Untitled"
  , description := (jsOrOS b.description (jsOrOS b.desc b.summary)).getD ""
  , url := jsStrOr (jsOrOS b.url (jsOrOS b.link (jsOrOS b.bookLink
      (jsOrOS b.download b.source)))) "#"
  , type := "book"
  , language := "general"
  , framework := none
  , difficulty := "intermediate"
  , tags := pushIfTruthy b.genre ++ pushIfTruthy b.category
  , author := jsOrOS b.author (jsOrOS b.writer (jsOrOS b.creator none))
  , rating := none
  , bookmarked := none }

/-- OpenLibrary search doc schema (only the fields the mapper reads). -/
structure OlDoc where
  key : Option String
  title : Option String
  subtitle : Option String
  first_sentence : Option String
  language : Option (List String)
  subject : Option (List String)
  author_name : Option (List String)
  cover_edition_key : Option String
  edition_key : Option (List String)
deriving DecidableEq, Repr

/-- An OpenLibrary search response body. -/
structure OlResp where
  numFound : Option JSNum
  docs : Option (List OlDoc)
deriving DecidableEq, Repr

/-- The OpenLibrary doc mapper (lines 375–394). -/
def mapOlDoc (d : OlDoc) : Resource :=
  { id := (jsOrOS d.key (jsOrOS d.cover_edition_key
      (jsOrOS (d.edition_key.bind List.head?) d.title))).getD "undefined"
  , title := jsStrOr d.title "Untitled"
  , description :=
      if truthyOS d.first_sentence then d.first_sentence.getD ""
      else d.subtitle.getD ""
  , url :=
      if truthyOS d.key then "https://openlibrary.org" ++ d.key.getD ""
      else "#"
  , type := "book"
  , language :=
      match d.language with
      | some (x :: _) => x
      | _ => "general"
  , framework := none
  , difficulty := "intermediate"
  , tags := (d.subject.getD []).take 5
  , author :=
      match d.author_name with
      | some (x :: _) => some x
      | _ => none
  , rating := none
  , bookmarked := none }

/-! ### Environment, request and upstream world -/

/-- Process-wide configuration read from the environment.  `altApiKey`
collapses `API_KEY || OPENAI_API_KEY || GENAI_API_KEY` into one value. -/
structure Env where
  resourceApiKey : Option String
  altApiKey : Option String
  resourceApiUrl : Option String
  youtubeKey : Option String
  googleBooksKey : Option String
  rapidApiKey : Option String
deriving DecidableEq, Repr

/-- `const apiKey = RESOURCE_API_KEY || API_KEY || OPENAI_API_KEY ||
GENAI_API_KEY` (line 144). -/
def Env.effApiKey (env : Env) : Option String :=
  jsOrOS env.resourceApiKey (jsOrOS env.altApiKey none)

/-- The `tags` query parameter: an array, a string, or absent
(lines 155–159). -/
inductive TagsParam where
  | arr (l : List String)
  | str (s : String)
  | absent
deriving DecidableEq, Repr

/-- Raw request query parameters as they arrive (each possibly absent). -/
structure RawReq where
  provider : Option String
  query : Option String
  type : Option String
  language : Option String
  framework : Option String
  difficulty : Option String
  tags : TagsParam
  page : Option String
  pageSize : Option String
deriving DecidableEq, Repr

/-- Parameters after the handler's processing (lines 148–161). -/
structure Req where
  provider : String
  query : String
  type : String
  language : String
  framework : String
  difficulty : String
  tags : List String
  page : JSNum
  pageSize : JSNum
deriving DecidableEq, Repr

/-- Parameter processing (lines 148–161): string defaults via `||`,
comma-splitting of a string `tags` parameter, `Number(x || d)` for page
and pageSize. -/
def processReq (raw : RawReq) : Req :=
  { provider := strToLower (jsStrOr raw.provider "")
  , query := jsStrOr raw.query ""
  , type := jsStrOr raw.type "all"
  , language := jsStrOr raw.language "all"
  , framework := jsStrOr raw.framework "all"
  , difficulty := jsStrOr raw.difficulty "all"
  , tags :=
      match raw.tags with
      | .arr l => l
      | .str s => if s = "" then [] else splitComma s
      | .absent => []
  , page := jsParseNum raw.page 1
  , pageSize := jsParseNum raw.pageSize 12 }

/-- The filter-parameter object the handler passes to
`filterAndPaginate` (line 567). -/
def Req.toFilterQuery (r : Req) : FilterQuery :=
  ⟨r.query, r.type, r.language, r.framework, r.difficulty, r.tags, r.page, r.pageSize⟩

/-- Parameters forwarded verbatim to a custom `RESOURCE_API_URL`
provider (line 524). -/
structure CustomParams where
  query : String
  type : String
  language : String
  framework : String
  difficulty : String
  tags : String
  page : JSNum
  pageSize : JSNum
  auth : Option String
deriving DecidableEq, Repr

/-- The behaviour of every upstream HTTP endpoint the handler can call.
Each function returns `.error ()` to model a rejected promise (network
failure, timeout, non-2xx).  Arguments are the request parameters that
vary between calls; constant parameters (API-key headers and similar)
are folded into the world's behaviour. -/
structure World where
  devtoSearch : (page perPage : JSNum) → (q : String) → (key : Option String) →
    Except Unit DevtoResp
  devtoList : (page perPage : JSNum) → (tag : Option String) → (key : Option String) →
    Except Unit DevtoResp
  custom : CustomParams → Except Unit DevtoResp
  yt : (q : String) → (maxResults : JSNum) → (pageToken : Option String) →
    Except Unit YtResp
  gbooks : (q : String) → (maxResults startIndex : JSNum) →
    (filterOpt : Option String) → (key : Option String) → Except Unit GbResp
  freebooks : (genre : String) → (pageNum : JSNum) → Except Unit FbResp
  openlib : (q : String) → (page limit : JSNum) → Except Unit OlResp

/-- The world in which every upstream call fails. -/
def failWorld : World :=
  { devtoSearch := fun _ _ _ _ => .error ()
  , devtoList := fun _ _ _ _ => .error ()
  , custom := fun _ => .error ()
  , yt := fun _ _ _ => .error ()
  , gbooks := fun _ _ _ _ _ => .error ()
  , freebooks := fun _ _ => .error ()
  , openlib := fun _ _ _ => .error () }

/-! ### The mixed-mode branch (lines 167–253) -/

/-- Mixed-mode search term: `query || (tags[0] || 'programming')`
(line 169). -/
def mixedSearchTerm (query : String) (tags : List String) : String :=
  jsStrOrD query (jsStrOr tags.head? "programming")

/-- Mixed-mode per-source limit:
`Math.max(1, Math.floor((pageSize || 12) / 3))` (line 170). -/
def mixedMaxPerSource (pageSize : JSNum) : JSNum :=
  jsMax (.int 1) (jsDivFloor (jsOrNum pageSize (.int 12)) (.int 3))

/-- The de-duplication loop (lines 245–250): keep the first occurrence
of each url, preserving order; `seen` is the set of urls kept so far. -/
def dedupeGo (seen : List String) : List Resource → List Resource
  | [] => []
  | r :: rest =>
    if r.url ∈ seen then dedupeGo seen rest
    else r :: dedupeGo (r.url :: seen) rest

/-- De-duplicate by url, keeping first occurrences in order. -/
def dedupeByUrl (l : List Resource) : List Resource := dedupeGo [] l

/-- Merge, de-duplicate and truncate (lines 241–252), given the three
settled adapter result lists in invocation order (article feed, video,
books). -/
def mixedCombine (merged : List Resource) (page pageSize : JSNum) : Paginated :=
  let unique := dedupeByUrl merged
  let items := jsSlice unique (.int 0) pageSize
  { items := items
  , total := .int items.length
  , page := page
  , pageSize := pageSize
  , totalPages := .int 1 }

/-- The mixed-mode DEV.to task (lines 175–187); failure yields `[]`. -/
def mixedDevItems (env : Env) (w : World) (r : Req) : List Resource :=
  let q := mixedSearchTerm r.query r.tags
  let maxPerSource := mixedMaxPerSource r.pageSize
  let key := if truthyOS env.resourceApiKey then env.resourceApiKey else none
  match (if q ≠ "" then w.devtoSearch r.page maxPerSource q key
         else w.devtoList r.page maxPerSource none key) with
  | .ok resp => (extractMixed resp).map mapDevToArticleToResource
  | .error _ => []

/-- The mixed-mode YouTube task (lines 190–211): only pushed when a
YouTube key is configured; failure yields `[]`. -/
def mixedYtItems (env : Env) (w : World) (r : Req) : List Resource :=
  if truthyOS env.youtubeKey then
    match w.yt (mixedSearchTerm r.query r.tags) (mixedMaxPerSource r.pageSize) none with
    | .ok resp => mapYtItems (resp.items.getD [])
    | .error _ => []
  else []

/-- The mixed-mode Google Books task (lines 214–239); failure yields
`[]`. -/
def mixedGbItems (env : Env) (w : World) (r : Req) : List Resource :=
  let maxPerSource := mixedMaxPerSource r.pageSize
  match w.gbooks (mixedSearchTerm r.query r.tags) maxPerSource
      (jsMax (.int 0) (jsMul (jsSub r.page (.int 1)) maxPerSource)) none
      env.googleBooksKey with
  | .ok resp => (resp.items.getD []).map mapGbItem
  | .error _ => []

/-- The whole mixed-mode branch (lines 167–253). -/
def mixedBranch (env : Env) (w : World) (r : Req) : Paginated :=
  mixedCombine (mixedDevItems env w r ++ mixedYtItems env w r ++ mixedGbItems env w r)
    r.page r.pageSize

/-! ### Single-provider branches -/

/-- The local type re-filter applied after every provider fetch:
`(type && type !== 'all') ? mapped.filter(r => r.type === type) : mapped`. -/
def applyTypeFilter (t : String) (l : List Resource) : List Resource :=
  if t != "" && t != "all" then l.filter (fun r => r.type == t) else l

/-- `Number(field || 0)` for an optional numeric JSON field (NaN is
falsy, so it also becomes 0). -/
def jsNumField (o : Option JSNum) : JSNum :=
  let v := o.getD (.int 0)
  if jsTruthy v then v else .int 0

/-- The googlebooks branch (lines 255–307). -/
def gbBranch (env : Env) (w : World) (r : Req) : Except Unit Paginated :=
  let q := if r.query ≠ "" then r.query else jsStrOr r.tags.head? "programming"
  let maxResults := jsMax (.int 1) (jsMin (.int 40) r.pageSize)
  let startIndex := jsMax (.int 0) (jsMul (jsSub r.page (.int 1)) maxResults)
  let filterOpt :=
    if r.tags.contains "free" || r.difficulty = "beginner" then some "free-ebooks"
    else none
  match w.gbooks q maxResults startIndex filterOpt env.googleBooksKey with
  | .error e => .error e
  | .ok resp =>
    let totalItems := jsNumField resp.totalItems
    let mapped := (resp.items.getD []).map mapGbItem
    .ok { items := applyTypeFilter r.type mapped
        , total := totalItems
        , page := r.page
        , pageSize := maxResults
        , totalPages := jsMax (.int 1) (jsDivCeil totalItems maxResults) }

/-- The freebooks branch (lines 309–362): throws when `RAPIDAPI_KEY` is
missing; returns the upstream list unsliced, with probe-free best-effort
totals. -/
def fbBranch (env : Env) (w : World) (r : Req) : Except Unit Paginated :=
  if truthyOS env.rapidApiKey then
    let genre := collapseWs (strToLower (jsStrOr r.tags.head? (jsStrOrD r.query "programming")))
    let pageNum := jsMax (.int 1) r.page
    match w.freebooks genre pageNum with
    | .error e => .error e
    | .ok resp =>
      let mapped := (fbBooksRaw resp).mapIdx (fun i b => mapFbBook genre pageNum i b)
      let filtered := applyTypeFilter r.type mapped
      let hasNext := decide (0 < filtered.length)
      .ok { items := filtered
          , total := jsAdd (jsAdd (jsMul (jsSub r.page (.int 1)) r.pageSize)
              (.int filtered.length)) (.int (if hasNext then 1 else 0))
          , page := r.page
          , pageSize := r.pageSize
          , totalPages := if hasNext then jsAdd r.page (.int 1) else r.page }
  else .error ()

/-- The openlibrary branch (lines 364–405). -/
def olBranch (_env : Env) (w : World) (r : Req) : Except Unit Paginated :=
  let q := jsStrOrD r.query (jsStrOr r.tags.head? "programming")
  let limit := jsMax (.int 1) (jsMin (.int 50) r.pageSize)
  match w.openlib q r.page limit with
  | .error e => .error e
  | .ok resp =>
    let mapped := (resp.docs.getD []).map mapOlDoc
    let numFound := jsNumField resp.numFound
    let totalPages := jsMax (.int 1) (jsDivCeil numFound limit)
    let safeTotalPages :=
      if jsFinite totalPages && jsGt totalPages (.int 0) then totalPages else r.page
    .ok { items := applyTypeFilter r.type mapped
        , total := numFound
        , page := r.page
        , pageSize := limit
        , totalPages := safeTotalPages }

/-- Number of iterations of the cursor-walk loop
`for (let i = 1; i < page; i++)` for an integer page (the only case the
claims exercise; a NaN page never enters the loop, and an infinite page
would not terminate in JavaScript either). -/
def ytIter : JSNum → Nat
  | .int p => (p - 1).toNat
  | _ => 0

/-- One walk of the cursor chain (lines 452–469): fetch, follow
`nextPageToken`, stop early when the token is falsy; the result is the
final value of `currentToken`.  A failed hop rejects the whole walk. -/
def ytWalk (w : World) (q : String) (maxResults : JSNum) :
    Nat → Option String → Except Unit (Option String)
  | 0, tok => .ok tok
  | n + 1, tok =>
    match w.yt q maxResults tok with
    | .error e => .error e
    | .ok resp =>
      let t := resp.nextPageToken
      if truthyOS t then ytWalk w q maxResults n t else .ok t

/-- The youtube branch (lines 408–502): throws when no YouTube key is
configured; replays the cursor chain (the source performs the identical
walk twice — lines 417–439 and 448–471 — so with a deterministic
upstream one evaluation models both), then fetches with the last truthy
token, if any. -/
def ytBranch (env : Env) (w : World) (r : Req) : Except Unit Paginated :=
  if truthyOS env.youtubeKey then
    let q := jsStrOrD r.query "programming tutorials"
    let maxResults := jsMax (.int 1) (jsMin (.int 50) r.pageSize)
    let walk : Except Unit (Option String) :=
      if jsGt r.page (.int 1) then ytWalk w q maxResults (ytIter r.page) none
      else .ok none
    match walk with
    | .error e => .error e
    | .ok tok =>
      let fetchTok := if truthyOS tok then tok else none
      match w.yt q maxResults fetchTok with
      | .error e => .error e
      | .ok resp =>
        let mapped := mapYtItems (resp.items.getD [])
        let hasNext := truthyOS resp.nextPageToken
        .ok { items := applyTypeFilter r.type mapped
            , total := jsAdd (jsAdd (jsMul (jsSub r.page (.int 1)) r.pageSize)
                (.int mapped.length)) (.int (if hasNext then 1 else 0))
            , page := r.page
            , pageSize := r.pageSize
            , totalPages := if hasNext then jsAdd r.page (.int 1) else r.page }
  else .error ()

/-! ### The default DEV.to / custom-provider branch (lines 504–563) -/

/-- Shared post-processing of the default branch: map, locally re-filter
by type, probe `page+1` for more results (a failed probe means
`hasNext = false`), and synthesise totals (lines 538–563). -/
def devtoPost (r : Req) (primary : List DevtoArticle)
    (probe : Except Unit (List DevtoArticle)) : Paginated :=
  let mapped := applyTypeFilter r.type (primary.map mapDevToArticleToResource)
  let hasNext :=
    match probe with
    | .error _ => false
    | .ok nextRaw =>
      decide (0 < (applyTypeFilter r.type (nextRaw.map mapDevToArticleToResource)).length)
  { items := mapped
  , total := jsAdd (jsAdd (jsMul (jsSub r.page (.int 1)) r.pageSize)
      (.int mapped.length)) (.int (if hasNext then 1 else 0))
  , page := r.page
  , pageSize := r.pageSize
  , totalPages := if hasNext then jsAdd r.page (.int 1) else r.page }

/-- Custom-provider forwarded parameters for a given page value. -/
def mkCustomParams (env : Env) (r : Req) (page : JSNum) : CustomParams :=
  { query := r.query, type := r.type, language := r.language
  , framework := r.framework, difficulty := r.difficulty
  , tags := String.intercalate "," r.tags
  , page := page, pageSize := r.pageSize
  , auth := if truthyOS env.effApiKey then env.effApiKey else none }

/-- The default branch: a custom `RESOURCE_API_URL` provider when
configured, otherwise the DEV.to search endpoint (query present) or
listing endpoint (optionally with the first tag). -/
def defaultBranch (env : Env) (w : World) (r : Req) : Except Unit Paginated :=
  let key := if truthyOS env.effApiKey then env.effApiKey else none
  if truthyOS env.resourceApiUrl then
    match w.custom (mkCustomParams env r r.page) with
    | .error e => .error e
    | .ok resp =>
      .ok (devtoPost r (extractDefault resp)
        ((w.custom (mkCustomParams env r (jsAdd r.page (.int 1)))).map extractDefault))
  else if r.query ≠ "" then
    match w.devtoSearch r.page r.pageSize r.query key with
    | .error e => .error e
    | .ok resp =>
      .ok (devtoPost r (extractDefault resp)
        ((w.devtoSearch (jsAdd r.page (.int 1)) r.pageSize r.query key).map extractDefault))
  else
    match w.devtoList r.page r.pageSize r.tags.head? key with
    | .error e => .error e
    | .ok resp =>
      .ok (devtoPost r (extractDefault resp)
        ((w.devtoList (jsAdd r.page (.int 1)) r.pageSize r.tags.head? key).map extractDefault))

/-! ### Dispatcher and endpoint -/

/-- Does the request route to mixed mode (line 167)? -/
def mixedRoute (r : Req) : Prop :=
  (r.provider = "" ∨ r.provider = "mixed") ∧ (r.type = "all" ∨ r.type = "")

instance (r : Req) : Decidable (mixedRoute r) := by
  unfold mixedRoute; infer_instance

/-- The provider dispatch chain inside the inner `try` (lines 164–563). -/
def tryProviders (env : Env) (w : World) (r : Req) : Except Unit Paginated :=
  if mixedRoute r then .ok (mixedBranch env w r)
  else if r.provider = "googlebooks" then gbBranch env w r
  else if r.provider = "freebooks" then fbBranch env w r
  else if r.provider = "openlibrary" then olBranch env w r
  else if r.provider = "youtube" then ytBranch env w r
  else defaultBranch env w r

/-- The resource-listing handler: provider chain, with the inner catch
substituting the filtered, sliced fallback catalog (lines 564–569). -/
def resourcesHandler (env : Env) (w : World) (raw : RawReq) : Paginated :=
  let r := processReq raw
  match tryProviders env w r with
  | .ok p => p
  | .error _ => filterAndPaginate fallbackData r.toFilterQuery

/-- An HTTP JSON response of the endpoint. -/
structure HttpJson where
  status : Nat
  body : Paginated
deriving DecidableEq, Repr

/-- `GET /api/resources`: every reachable path of the model responds via
`res.json(...)`, i.e. HTTP 200 (the outer 500 catch guards only against
exceptions the embedded code cannot raise). -/
def resourcesEndpoint (env : Env) (w : World) (raw : RawReq) : HttpJson :=
  { status := 200, body := resourcesHandler env w raw }

/-! ### The chat endpoint prelude (lines 577–587) -/

/-- One chat message. -/
structure ChatMsg where
  role : String
  content : String
deriving DecidableEq, Repr

/-- The `messages` field of a chat request body: absent, present but not
an array, or an array. -/
inductive MessagesField where
  | absent
  | notArray
  | arr (l : List ChatMsg)
deriving DecidableEq, Repr

/-- A chat request body (only the field validation reads). -/
structure ChatBody where
  messages : MessagesField
deriving DecidableEq, Repr

/-- Outcome of the chat handler's prelude. -/
inductive ChatStep where
  | respond (status : Nat) (error : String)
  | proceed (msgs : List ChatMsg)
deriving DecidableEq, Repr

/-- The prelude of `POST /api/chat` (lines 577–587): the configuration
check precedes body validation.  `geminiKey` is
`GEMINI_API_KEY || GOOGLE_API_KEY`.  The remainder of the handler (the
model fan-out) is not modelled; no claim depends on it. -/
def chatPrelude (geminiKey : Option String) (body : ChatBody) : ChatStep :=
  if ¬ truthyOS geminiKey then
    .respond 500 "GEMINI_API_KEY is not set on the server"
  else
    match body.messages with
    | .arr (m :: ms) => .proceed (m :: ms)
    | _ => .respond 400 "Request body must include non-empty messages array"

/-- The HTTP status of a prelude outcome (a proceeding request's status
depends on the unmodelled remainder; `none` marks that). -/
def chatStatus : ChatStep → Option Nat
  | .respond s _ => some s
  | .proceed _ => none

/-! ### Invariants and upstream assumptions -/

/-- Structural well-formedness of a PaginatedResult: an integral
`totalPages ≥ 1` and no more items than the response's own `pageSize`. -/
def InvGood (pg : Paginated) : Prop :=
  (∃ t : Int, pg.totalPages = .int t ∧ 1 ≤ t) ∧
  (∃ k : Int, pg.pageSize = .int k ∧ (pg.items.length : Int) ≤ k)

/-- An upstream world that honours request limits: each endpoint returns
at most the requested number of items, and numeric count fields of
successful JSON responses are (finite) integers. -/
structure RespectsLimits (w : World) : Prop where
  devtoSearch : ∀ page k q key resp, w.devtoSearch page (.int k) q key = .ok resp →
    ((extractDefault resp).length : Int) ≤ k
  devtoList : ∀ page k tag key resp, w.devtoList page (.int k) tag key = .ok resp →
    ((extractDefault resp).length : Int) ≤ k
  custom : ∀ ps resp k, w.custom ps = .ok resp → ps.pageSize = .int k →
    ((extractDefault resp).length : Int) ≤ k
  yt : ∀ q k tok resp, w.yt q (.int k) tok = .ok resp →
    ((resp.items.getD []).length : Int) ≤ k
  gbooks : ∀ q k si f key resp, w.gbooks q (.int k) si f key = .ok resp →
    ((resp.items.getD []).length : Int) ≤ k ∧
    (∀ v, resp.totalItems = some v → ∃ n, v = JSNum.int n)
  openlib : ∀ q page k resp, w.openlib q page (.int k) = .ok resp →
    ((resp.docs.getD []).length : Int) ≤ k ∧
    (∀ v, resp.numFound = some v → ∃ n, v = JSNum.int n)

/-- The single `&&`-predicate the six-stage filter chain amounts to
(outermost stage leftmost). -/
def fullPred (p : FilterQuery) (r : Resource) : Bool :=
  (!(decide (0 < p.tags.length)) || p.tags.any (fun t => r.tags.contains t)) &&
  ((!(p.difficulty != "" && p.difficulty != "all") || r.difficulty == p.difficulty) &&
  ((!(p.framework != "" && p.framework != "all") || r.framework == some p.framework) &&
  ((!(p.language != "" && p.language != "all") || r.language == p.language) &&
  ((!(p.type != "" && p.type != "all") || r.type == p.type) &&
  (!(p.query != "") || matchesText (strToLower p.query) r)))))

/-! ### Concrete instances for witnesses and counterexamples -/

/-- An environment with nothing configured. -/
def env0 : Env := ⟨none, none, none, none, none, none⟩

/-- A request with no query parameters at all (routes to mixed mode). -/
def rawMixed : RawReq := ⟨none, none, none, none, none, none, .absent, none, none⟩

/-- `GET /api/resources?type=video&pageSize=abc`. -/
def rawBadSize : RawReq :=
  ⟨none, none, some "video", none, none, none, .absent, none, some "abc"⟩

/-- `GET /api/resources?provider=freebooks&pageSize=1`. -/
def rawFb : RawReq :=
  ⟨some "freebooks", none, none, none, none, none, .absent, none, some "1"⟩

/-- `GET /api/resources?provider=youtube&page=2`. -/
def rawYtP2 : RawReq :=
  ⟨some "youtube", none, none, none, none, none, .absent, some "2", none⟩

/-- `GET /api/resources?provider=youtube` (page 1). -/
def rawYtP1 : RawReq :=
  ⟨some "youtube", none, none, none, none, none, .absent, none, none⟩

/-- A sample FreeBooks record. -/
def fbBookA : FbBook :=
  { id := some "fb-1", isbn := none, title := some "Book A", name := none
  , bookTitle := none, description := some "first book", desc := none
  , summary := none, url := some "http://books.example/a", link := none
  , bookLink := none, download := none, source := none, author := some "A. Author"
  , writer := none, creator := none, genre := some "programming", category := none }

/-- A second sample FreeBooks record. -/
def fbBookB : FbBook :=
  { id := some "fb-2", isbn := none, title := some "Book B", name := none
  , bookTitle := none, description := some "second book", desc := none
  , summary := none, url := some "http://books.example/b", link := none
  , bookLink := none, download := none, source := none, author := none
  , writer := none, creator := none, genre := none, category := some "tech" }

/-- Environment with only a RapidAPI key configured. -/
def envFb : Env := ⟨none, none, none, none, none, some "rk"⟩

/-- World where only the FreeBooks endpoint works, returning two books
regardless of the request. -/
def fbW : World :=
  { failWorld with freebooks := fun _ _ => .ok (.arr [fbBookA, fbBookB]) }

/-- A sample YouTube search item. -/
def ytVid : YtItem :=
  { id := some ⟨some "dQw4w9WgXcQ"⟩
  , snippet := some ⟨some "Video One", some "first result", some "Channel"⟩ }

/-- Environment with only a YouTube key configured. -/
def envYt : Env := ⟨none, none, none, some "yt-key", none, none⟩

/-- World whose YouTube endpoint has exactly one page of results: a
token-free request yields one video and no continuation token. -/
def ytW : World :=
  { failWorld with
    yt := fun _ _ tok =>
      match tok with
      | none => .ok { items := some [ytVid], nextPageToken := none }
      | some _ => .ok { items := some [], nextPageToken := none } }

/-- World whose book-catalog endpoints report 100 total results and an
empty page. -/
def wCap : World :=
  { failWorld with
    gbooks := fun _ _ _ _ _ => .ok ⟨some (.int 100), some []⟩
  , openlib := fun _ _ _ => .ok ⟨some (.int 100), some []⟩ }

/-- Processed parameters of a plain `pageSize = 12` request. -/
def reqPlain : Req := ⟨"", "", "all", "all", "all", "all", [], .int 1, .int 12⟩

/-- The PaginatedResult both capped branches produce against `wCap`. -/
def pgCap : Paginated := ⟨[], .int 100, .int 1, .int 12, .int 9⟩

/-- A sample article resource. -/
def resArticle : Resource :=
  { id := "a1", title := "Intro to Testing", description := "an article"
  , url := "http://shared.example/post", type := "article", language := "general"
  , framework := none, difficulty := "intermediate", tags := ["testing"]
  , author := some "Dev One", rating := none, bookmarked := none }

/-- A sample video resource sharing the article's url (a cross-adapter
duplicate). -/
def resVideo : Resource :=
  { id := "v1", title := "Testing Screencast", description := "a video"
  , url := "http://shared.example/post", type := "video", language := "general"
  , framework := none, difficulty := "intermediate", tags := []
  , author := some "Dev Two", rating := none, bookmarked := none }

/-- An empty chat body (`messages = []`). -/
def chatBodyEmpty : ChatBody := ⟨.arr []⟩

/-! ## Helper lemmas -/

theorem jsMax_int_int (a b : Int) : jsMax (.int a) (.int b) = .int (max a b) := rfl

theorem jsMin_int_int (a b : Int) : jsMin (.int a) (.int b) = .int (min a b) := rfl

theorem jsAdd_int_int (a b : Int) : jsAdd (.int a) (.int b) = .int (a + b) := rfl

theorem jsSub_int_int (a b : Int) : jsSub (.int a) (.int b) = .int (a - b) := by
  simp [jsSub, jsAdd, jsNeg, Int.sub_eq_add_neg]

theorem jsMul_int_int (a b : Int) : jsMul (.int a) (.int b) = .int (a * b) := rfl

theorem jsTruthy_int {s : Int} (h : s ≠ 0) : jsTruthy (.int s) = true := by
  unfold jsTruthy
  split
  · rename_i heq; nomatch heq
  · rename_i heq; injection heq with h0; exact absurd h0 h
  · rfl

theorem jsDivCeil_int_int (a : Int) {b : Int} (hb : b ≠ 0) :
    jsDivCeil (.int a) (.int b) = .int (-((-a).fdiv b)) := by
  simp [jsDivCeil, hb]

theorem jsDivFloor_int_int (a : Int) {b : Int} (hb : b ≠ 0) :
    jsDivFloor (.int a) (.int b) = .int (a.fdiv b) := by
  simp [jsDivFloor, hb]

theorem jsSlice_int_length {α : Type} (l : List α) (a s : Int) (ha : 0 ≤ a) (hs : 0 ≤ s) :
    ((jsSlice l (.int a) (.int (a + s))).length : Int) ≤ s := by
  have h1 : ¬ a < 0 := by omega
  have h2 : ¬ a + s < 0 := by omega
  simp only [jsSlice, jsSliceIdx, if_neg h1, if_neg h2, List.length_drop, List.length_take]
  omega

theorem jsSlice_zero_eq_take {α : Type} (l : List α) (s : Int) (hs : 0 ≤ s) :
    jsSlice l (.int 0) (.int s) = l.take s.toNat := by
  have h2 : ¬ s < 0 := by omega
  have h0 : ¬ (0 : Int) < 0 := by omega
  simp only [jsSlice, jsSliceIdx, if_neg h2, if_neg h0, Int.toNat_zero, Nat.zero_min,
    List.drop_zero]
  rw [List.take_eq_take]
  omega

/-- `Math.ceil(n / d)` is at least 1 whenever `n` may be anything and
`d ≥ 1`, after the `Math.max(1, ·)` floor. -/
theorem jsMax_one_divCeil_int (n : Int) {d : Int} (hd : 1 ≤ d) :
    ∃ t : Int, jsMax (.int 1) (jsDivCeil (.int n) (.int d)) = .int t ∧ 1 ≤ t := by
  rw [jsDivCeil_int_int n (by omega), jsMax_int_int]
  exact ⟨_, rfl, le_max_left _ _⟩

theorem jsNumField_int {o : Option JSNum}
    (h : ∀ v, o = some v → ∃ n, v = JSNum.int n) :
    ∃ m, jsNumField o = .int m := by
  cases o with
  | none => exact ⟨0, rfl⟩
  | some v =>
    obtain ⟨n, rfl⟩ := h v rfl
    by_cases hn : n = 0
    · subst hn; exact ⟨0, rfl⟩
    · exact ⟨n, by simp [jsNumField, jsTruthy_int hn]⟩

theorem condFilter_eq (b : Bool) (f : Resource → Bool) (l : List Resource) :
    condFilter b f l = l.filter (fun r => !b || f r) := by
  cases b <;> simp [condFilter]

theorem applyFilters_eq_filter (p : FilterQuery) (l : List Resource) :
    applyFilters p l = l.filter (fullPred p) := by
  simp only [applyFilters, condFilter_eq, List.filter_filter]
  rfl

theorem applyFilters_sublist (p : FilterQuery) (l : List Resource) :
    (applyFilters p l).Sublist l := by
  rw [applyFilters_eq_filter]
  exact List.filter_sublist l

theorem applyTypeFilter_length_le (t : String) (l : List Resource) :
    (applyTypeFilter t l).length ≤ l.length := by
  unfold applyTypeFilter
  split
  · exact List.length_filter_le _ _
  · exact le_rfl

/-! Dedup loop lemmas -/

theorem dedupeGo_sublist (l : List Resource) :
    ∀ seen, (dedupeGo seen l).Sublist l := by
  induction l with
  | nil => intro seen; simp [dedupeGo]
  | cons a rest ih =>
    intro seen
    by_cases h : a.url ∈ seen
    · rw [dedupeGo, if_pos h]
      exact (ih seen).cons a
    · rw [dedupeGo, if_neg h]
      exact (ih _).cons₂ a

theorem dedupeGo_spec (l : List Resource) :
    ∀ seen r, r ∈ dedupeGo seen l →
      r.url ∉ seen ∧ l.find? (fun x => x.url == r.url) = some r := by
  induction l with
  | nil => intro seen r h; simp [dedupeGo] at h
  | cons a rest ih =>
    intro seen r h
    by_cases ha : a.url ∈ seen
    · rw [dedupeGo, if_pos ha] at h
      obtain ⟨hn, hf⟩ := ih seen r h
      have hne : a.url ≠ r.url := fun he => hn (he ▸ ha)
      exact ⟨hn, by simp [List.find?_cons, beq_eq_false_iff_ne.mpr hne, hf]⟩
    · rw [dedupeGo, if_neg ha] at h
      rcases List.mem_cons.mp h with rfl | h'
      · exact ⟨ha, by simp [List.find?_cons]⟩
      · obtain ⟨hn, hf⟩ := ih _ r h'
        have hnurl : r.url ∉ seen := fun hc => hn (List.mem_cons_of_mem _ hc)
        have hne : a.url ≠ r.url := fun he => hn (he ▸ List.mem_cons_self _ _)
        exact ⟨hnurl, by simp [List.find?_cons, beq_eq_false_iff_ne.mpr hne, hf]⟩

theorem dedupeGo_nodup (l : List Resource) :
    ∀ seen, ((dedupeGo seen l).map Resource.url).Nodup := by
  induction l with
  | nil => intro seen; simp [dedupeGo]
  | cons a rest ih =>
    intro seen
    by_cases h : a.url ∈ seen
    · rw [dedupeGo, if_pos h]; exact ih seen
    · rw [dedupeGo, if_neg h]
      refine List.nodup_cons.mpr ⟨?_, ih _⟩
      intro hmem
      obtain ⟨r, hr, hurl⟩ := List.mem_map.mp hmem
      exact (dedupeGo_spec rest _ r hr).1 (hurl ▸ List.mem_cons_self _ _)

theorem dedupeGo_complete (l : List Resource) :
    ∀ seen u, (∃ r ∈ l, r.url = u) → u ∉ seen →
      ∃ r ∈ dedupeGo seen l, r.url = u := by
  induction l with
  | nil => intro seen u h _; simp at h
  | cons a rest ih =>
    intro seen u h hu
    by_cases ha : a.url ∈ seen
    · rw [dedupeGo, if_pos ha]
      obtain ⟨r, hr, rfl⟩ := h
      rcases List.mem_cons.mp hr with rfl | hr'
      · exact absurd ha hu
      · exact ih seen r.url ⟨r, hr', rfl⟩ hu
    · rw [dedupeGo, if_neg ha]
      obtain ⟨r, hr, rfl⟩ := h
      rcases List.mem_cons.mp hr with rfl | hr'
      · exact ⟨r, List.mem_cons_self _ _, rfl⟩
      · by_cases heq : r.url = a.url
        · exact ⟨a, List.mem_cons_self _ _, heq.symm⟩
        · obtain ⟨r', hr'', hurl⟩ := ih (a.url :: seen) r.url ⟨r, hr', rfl⟩
            (by simp [heq, hu])
          exact ⟨r', List.mem_cons_of_mem _ hr'', hurl⟩

/-! ## Claim C8: the filter stage is idempotent, order-preserving and
pure -/

/-- C8: for every query and every resource list, applying the filter
stage twice equals applying it once, and the output is a sublist of the
input (relative order preserved; being a pure function of the input, the
embedding also cannot mutate it). -/
theorem applyFilters_idem_sublist (p : FilterQuery) (l : List Resource) :
    applyFilters p (applyFilters p l) = applyFilters p l ∧
    (applyFilters p l).Sublist l := by
  refine ⟨?_, applyFilters_sublist p l⟩
  rw [applyFilters_eq_filter, applyFilters_eq_filter, List.filter_filter]
  exact List.filter_congr (fun x _ => Bool.and_self _)

/-! ## Claim C3: mixed-mode merge, de-duplication and truncation -/

/-- C3: for any adapter result lists (article feed, then video, then
books), the mixed-mode combination keeps each url exactly once, the
retained copy of a url is the first occurrence in adapter-invocation
order (and positions are preserved: the items form a sublist of the
concatenation), at most `pageSize` items are returned, and `totalPages`
is exactly 1.  Every merged url survives de-duplication (truncation to
`pageSize` happens afterwards). -/
theorem mixed_mode_dedupe (ld lv lg : List Resource) (page : JSNum) (s : Int)
    (hs : 1 ≤ s) :
    (mixedCombine (ld ++ lv ++ lg) page (.int s)).totalPages = .int 1 ∧
    ((mixedCombine (ld ++ lv ++ lg) page (.int s)).items.length : Int) ≤ s ∧
    (mixedCombine (ld ++ lv ++ lg) page (.int s)).items.Sublist (ld ++ lv ++ lg) ∧
    (∀ u, u ∈ (mixedCombine (ld ++ lv ++ lg) page (.int s)).items.map Resource.url →
      ((mixedCombine (ld ++ lv ++ lg) page (.int s)).items.map Resource.url).count u = 1) ∧
    (∀ r ∈ (mixedCombine (ld ++ lv ++ lg) page (.int s)).items,
      (ld ++ lv ++ lg).find? (fun x => x.url == r.url) = some r) ∧
    (∀ u, u ∈ (ld ++ lv ++ lg).map Resource.url →
      u ∈ (dedupeByUrl (ld ++ lv ++ lg)).map Resource.url) := by
  have hs0 : (0 : Int) ≤ s := by omega
  have hitems : (mixedCombine (ld ++ lv ++ lg) page (.int s)).items =
      (dedupeByUrl (ld ++ lv ++ lg)).take s.toNat := by
    simp only [mixedCombine]
    exact jsSlice_zero_eq_take _ s hs0
  have hsub1 : ((dedupeByUrl (ld ++ lv ++ lg)).take s.toNat).Sublist
      (dedupeByUrl (ld ++ lv ++ lg)) := List.take_sublist _ _
  have hnodup : (((dedupeByUrl (ld ++ lv ++ lg)).take s.toNat).map Resource.url).Nodup :=
    (dedupeGo_nodup (ld ++ lv ++ lg) []).sublist (hsub1.map Resource.url)
  refine ⟨rfl, ?_, ?_, ?_, ?_, ?_⟩
  · rw [hitems]
    have := List.length_take_le s.toNat (dedupeByUrl (ld ++ lv ++ lg))
    omega
  · rw [hitems]
    exact hsub1.trans (dedupeGo_sublist _ [])
  · rw [hitems]
    intro u hu
    exact List.count_eq_one_of_mem hnodup hu
  · rw [hitems]
    intro r hr
    exact (dedupeGo_spec (ld ++ lv ++ lg) [] r (hsub1.subset hr)).2
  · intro u hu
    obtain ⟨r, hr, rfl⟩ := List.mem_map.mp hu
    obtain ⟨r', hr', hurl⟩ :=
      dedupeGo_complete (ld ++ lv ++ lg) [] r.url ⟨r, hr, rfl⟩ (by simp)
    exact List.mem_map.mpr ⟨r', hr', hurl⟩

/-- Witness for C3 at a concrete input: an article and a video sharing
one url, `pageSize = 2`. -/
theorem mixed_mode_dedupe_witness :
    (mixedCombine ([resArticle] ++ [resVideo] ++ []) (.int 1) (.int 2)).totalPages =
      .int 1 :=
  (mixed_mode_dedupe [resArticle] [resVideo] [] (.int 1) 2 (by decide)).1

/-! ## Claim C10: provider-capped pageSize for googlebooks and
openlibrary -/

/-- C10: whenever the googlebooks branch succeeds, the response's
`pageSize` field is `max(1, min(40, requested))` and its `totalPages` is
computed against that capped value; whenever the openlibrary branch
succeeds, the response's `pageSize` field is `max(1, min(50, requested))`. -/
theorem capped_pageSize (env : Env) (w : World) (r : Req) (s : Int)
    (hs : r.pageSize = .int s) :
    (∀ pg, gbBranch env w r = .ok pg →
      pg.pageSize = .int (max 1 (min 40 s)) ∧
      pg.totalPages = jsMax (.int 1) (jsDivCeil pg.total (.int (max 1 (min 40 s))))) ∧
    (∀ pg, olBranch env w r = .ok pg → pg.pageSize = .int (max 1 (min 50 s))) := by
  constructor
  · intro pg h
    rw [gbBranch, hs, jsMin_int_int, jsMax_int_int] at h
    split at h
    · nomatch h
    · injection h with h'
      subst h'
      exact ⟨rfl, rfl⟩
  · intro pg h
    rw [olBranch, hs, jsMin_int_int, jsMax_int_int] at h
    split at h
    · nomatch h
    · injection h with h'
      subst h'
      rfl

/-- Witness for C10: both branches against `wCap` with requested
`pageSize = 12`. -/
theorem capped_pageSize_witness :
    pgCap.pageSize = .int (max 1 (min 40 12)) ∧ pgCap.pageSize = .int (max 1 (min 50 12)) :=
  ⟨((capped_pageSize env0 wCap reqPlain 12 rfl).1 pgCap (by rfl)).1,
    (capped_pageSize env0 wCap reqPlain 12 rfl).2 pgCap (by rfl)⟩

/-! ## Claim C9: chat-endpoint validation -/

/-- C9 counterexample: with no Gemini key configured, a `messages = []`
request is answered with status 500 (the configuration check precedes
validation), not 400 as the claim states for every such POST. -/
theorem chat_empty_messages_counterexample :
    chatPrelude none chatBodyEmpty =
      .respond 500 "GEMINI_API_KEY is not set on the server" ∧
    chatStatus (chatPrelude none chatBodyEmpty) ≠ some 400 := by
  decide

/-- C9 amended: provided a Gemini API key is configured, a request whose
`messages` field is an empty array, absent, or not an array is answered
with HTTP 400 and a non-empty error string. -/
theorem chat_validation (key : Option String) (hk : truthyOS key = true)
    (body : ChatBody)
    (hb : body.messages = .arr [] ∨ body.messages = .absent ∨
      body.messages = .notArray) :
    chatPrelude key body =
      .respond 400 "Request body must include non-empty messages array" ∧
    "Request body must include non-empty messages array" ≠ "" := by
  refine ⟨?_, by decide⟩
  rw [chatPrelude, if_neg (by simp [hk])]
  rcases hb with hb | hb | hb <;> rw [hb]

/-- Witness for C9 amended: a configured key and `messages = []`. -/
theorem chat_validation_witness :
    chatPrelude (some "gk") chatBodyEmpty =
      .respond 400 "Request body must include non-empty messages array" :=
  (chat_validation (some "gk") (by decide) chatBodyEmpty (.inl rfl)).1

/-! ## Claim C6: mixed-mode per-source limit and search term -/

/-- C6 counterexample: at `pageSize = 13` the per-source limit is
`max(1, floor(13/3)) = 4`, not `ceil(13/3) = 5`. -/
theorem mixed_per_source_counterexample :
    mixedMaxPerSource (.int 13) = .int 4 ∧
    jsDivCeil (.int 13) (.int 3) = .int 5 ∧
    mixedMaxPerSource (.int 13) ≠ jsDivCeil (.int 13) (.int 3) := by
  decide

/-- C6 amended: for `pageSize ≥ 1` the per-source limit equals
`max(1, floor(pageSize/3))`, which is at most `ceil(pageSize/3)`, and
the search term is the free-text query when non-empty, else the first
tag when non-empty, else the literal "programming". -/
theorem mixed_per_source_params (s : Int) (hs : 1 ≤ s) (query : String)
    (tags : List String) :
    mixedMaxPerSource (.int s) = .int (max 1 (s.fdiv 3)) ∧
    jsDivCeil (.int s) (.int 3) = .int (-((-s).fdiv 3)) ∧
    max 1 (s.fdiv 3) ≤ -((-s).fdiv 3) ∧
    (query ≠ "" → mixedSearchTerm query tags = query) ∧
    (∀ t ts, query = "" → tags = t :: ts → t ≠ "" → mixedSearchTerm query tags = t) ∧
    (query = "" → tags = [] → mixedSearchTerm query tags = "programming") := by
  have h3 : (3 : Int) ≠ 0 := by omega
  have hfd : s.fdiv 3 = s / 3 := Int.fdiv_eq_ediv s (by omega)
  have hfd2 : (-s).fdiv 3 = (-s) / 3 := Int.fdiv_eq_ediv (-s) (by omega)
  refine ⟨?_, jsDivCeil_int_int s h3, ?_, ?_, ?_, ?_⟩
  · rw [mixedMaxPerSource, jsOrNum, if_pos (jsTruthy_int (by omega)),
      jsDivFloor_int_int s h3, jsMax_int_int]
  · rw [hfd, hfd2, max_le_iff]
    omega
  · intro hq
    simp [mixedSearchTerm, jsStrOrD, hq]
  · intro t ts hq ht htne
    simp [mixedSearchTerm, jsStrOrD, hq, ht, jsStrOr, htne]
  · intro hq ht
    simp [mixedSearchTerm, jsStrOrD, hq, ht, jsStrOr]

/-- Witness for C6 amended at `pageSize = 12`, query "docker". -/
theorem mixed_per_source_params_witness :
    mixedMaxPerSource (.int 12) = .int (max 1 (Int.fdiv 12 3)) :=
  (mixed_per_source_params 12 (by decide) "docker" []).1

/-! ## Claim C4: probe-based pagination of the default article path -/

/-- C4: on the default (no authoritative total) path, when the probe for
`page+1` yields at least one item (after the local type filter), the
totals are `totalPages = page+1` and
`total = (page-1)*pageSize + itemsOnThisPage + 1`; when the probe yields
zero items or the probe request fails, `totalPages = page` and
`total = (page-1)*pageSize + itemsOnThisPage`.  `devtoPost` is total in
the probe outcome: a failed probe never fails the primary request. -/
theorem probe_totals (r : Req) (p s : Int) (hp : r.page = .int p)
    (hs : r.pageSize = .int s) (primary : List DevtoArticle)
    (probe : Except Unit (List DevtoArticle)) :
    ((∃ nextRaw, probe = .ok nextRaw ∧
        0 < (applyTypeFilter r.type (nextRaw.map mapDevToArticleToResource)).length) →
      (devtoPost r primary probe).totalPages = .int (p + 1) ∧
      (devtoPost r primary probe).total =
        .int ((p - 1) * s +
          ((applyTypeFilter r.type (primary.map mapDevToArticleToResource)).length : Int)
          + 1)) ∧
    ((probe = .error () ∨ (∃ nextRaw, probe = .ok nextRaw ∧
        (applyTypeFilter r.type (nextRaw.map mapDevToArticleToResource)).length = 0)) →
      (devtoPost r primary probe).totalPages = .int p ∧
      (devtoPost r primary probe).total =
        .int ((p - 1) * s +
          ((applyTypeFilter r.type (primary.map mapDevToArticleToResource)).length : Int))) := by
  constructor
  · rintro ⟨nextRaw, rfl, hpos⟩
    simp only [devtoPost, decide_eq_true hpos, if_true, hp, hs, jsSub_int_int,
      jsMul_int_int, jsAdd_int_int]
    constructor <;> trivial
  · rintro (rfl | ⟨nextRaw, rfl, hzero⟩)
    · simp only [devtoPost, Bool.false_eq_true, if_false, hp, hs, jsSub_int_int,
        jsMul_int_int, jsAdd_int_int]
      constructor <;> simp
    · simp only [devtoPost, hzero, decide_eq_false (by omega : ¬ (0 : Nat) < 0),
        Bool.false_eq_true, if_false, hp, hs, jsSub_int_int, jsMul_int_int,
        jsAdd_int_int]
      constructor <;> simp

/-- Witness for C4: a failed probe on an empty primary page at
`page = 1`, `pageSize = 12`. -/
theorem probe_totals_witness :
    (devtoPost reqPlain [] (.error ())).totalPages = .int 1 ∧
    (devtoPost reqPlain [] (.error ())).total = .int 0 := by
  have h := (probe_totals reqPlain 1 12 rfl rfl [] (.error ())).2 (.inl rfl)
  simpa [applyTypeFilter] using h

/-! ## Claim C5 (code bug): invalid page/pageSize values are not clamped -/

/-- C5: the code does not clamp or default invalid numeric parameters.
`GET /api/resources?type=video&pageSize=abc` (with upstreams failing, so
the fallback path is taken) produces `pageSize = NaN` and
`totalPages = Math.max(1, Math.ceil(total / NaN)) = NaN` — a non-finite
pagination field in a 200 response, contradicting both the claim and the
spec's stated invariant. -/
theorem invalid_pageSize_not_clamped :
    (resourcesEndpoint env0 failWorld rawBadSize).status = 200 ∧
    (resourcesEndpoint env0 failWorld rawBadSize).body.pageSize = JSNum.nan ∧
    (resourcesEndpoint env0 failWorld rawBadSize).body.totalPages = JSNum.nan := by
  decide

/-! ## Claim C7 (code bug): cursor overflow re-serves page 1 -/

/-- C7: with one available page upstream (no continuation token), a
request for page 2 walks the chain, finds no token, then re-fetches
WITHOUT a pageToken — returning page 1's items (non-empty, identical to
the page-1 response) instead of the empty page the claim (and the
source's own comments) require. -/
theorem yt_cursor_overflow_returns_page1 :
    (resourcesEndpoint envYt ytW rawYtP2).body.items ≠ [] ∧
    (resourcesEndpoint envYt ytW rawYtP2).body.items =
      (resourcesEndpoint envYt ytW rawYtP1).body.items ∧
    (resourcesEndpoint envYt ytW rawYtP2).body.page = .int 2 := by
  decide

/-! ## Claim C1: behaviour when every upstream call fails -/

/-- C1 counterexample: a mixed-mode request with every adapter call
failing returns an EMPTY page (`total = 0`), not a PaginatedResult built
from the static fallback catalog (which would have `total = 2`): the
per-task `.catch(() => [])` handlers absorb mixed-mode failures before
the fallback catch can run. -/
theorem mixed_failure_skips_fallback_catalog :
    (resourcesEndpoint env0 failWorld rawMixed).status = 200 ∧
    (resourcesEndpoint env0 failWorld rawMixed).body.total = .int 0 ∧
    (filterAndPaginate fallbackData (processReq rawMixed).toFilterQuery).total = .int 2 ∧
    (resourcesEndpoint env0 failWorld rawMixed).body ≠
      filterAndPaginate fallbackData (processReq rawMixed).toFilterQuery := by
  decide

/-! ## Claim C2: PaginatedResult structural invariants -/

/-- C2 counterexample: the freebooks branch returns the upstream page
unsliced; two upstream books at `pageSize = 1` yield
`items.length = 2 > 1 = pageSize`. -/
theorem freebooks_exceeds_pageSize :
    (resourcesHandler envFb fbW rawFb).pageSize = .int 1 ∧
    (resourcesHandler envFb fbW rawFb).items.length = 2 := by
  decide

/-! Fallback-path lemmas: every non-mixed branch propagates total
upstream failure, while mixed mode absorbs it. -/

theorem jsSlice_nil {α : Type} (s e : JSNum) : jsSlice ([] : List α) s e = [] := by
  simp [jsSlice]

theorem filterAndPaginate_total (data : List Resource) (q : FilterQuery) :
    (filterAndPaginate data q).total = .int ((applyFilters q data).length : Int) := rfl

theorem filterAndPaginate_totalPages (data : List Resource) (q : FilterQuery) :
    (filterAndPaginate data q).totalPages =
      jsMax (.int 1) (jsDivCeil (filterAndPaginate data q).total q.pageSize) := rfl

theorem gbBranch_failWorld (env : Env) (r : Req) :
    gbBranch env failWorld r = .error () := rfl

theorem fbBranch_failWorld (env : Env) (r : Req) :
    fbBranch env failWorld r = .error () := by
  unfold fbBranch
  split <;> rfl

theorem olBranch_failWorld (env : Env) (r : Req) :
    olBranch env failWorld r = .error () := rfl

theorem ytBranch_failWorld (env : Env) (r : Req) :
    ytBranch env failWorld r = .error () := by
  unfold ytBranch
  split
  · split
    · cases hn : ytIter r.page with
      | zero => simp only [hn]; rfl
      | succ n => simp only [hn]; rfl
    · rfl
  · rfl

theorem defaultBranch_failWorld (env : Env) (r : Req) :
    defaultBranch env failWorld r = .error () := by
  unfold defaultBranch
  split <;> split <;> first | rfl | (split <;> rfl)

theorem mixedDevItems_failWorld (env : Env) (r : Req) :
    mixedDevItems env failWorld r = [] := by
  unfold mixedDevItems
  dsimp only
  repeat' split
  all_goals try rfl
  all_goals rename_i heq
  all_goals simp [failWorld] at heq

theorem mixedYtItems_failWorld (env : Env) (r : Req) :
    mixedYtItems env failWorld r = [] := by
  unfold mixedYtItems
  repeat' split
  all_goals try rfl
  all_goals rename_i heq
  all_goals simp [failWorld] at heq

theorem mixedGbItems_failWorld (env : Env) (r : Req) :
    mixedGbItems env failWorld r = [] := rfl

theorem mixedBranch_failWorld (env : Env) (r : Req) :
    mixedBranch env failWorld r = ⟨[], .int 0, r.page, r.pageSize, .int 1⟩ := by
  unfold mixedBranch
  rw [mixedDevItems_failWorld, mixedYtItems_failWorld, mixedGbItems_failWorld]
  simp [mixedCombine, dedupeByUrl, dedupeGo, jsSlice_nil]

theorem tryProviders_failWorld (env : Env) (r : Req) (h : ¬ mixedRoute r) :
    tryProviders env failWorld r = .error () := by
  unfold tryProviders
  rw [if_neg h]
  by_cases h1 : r.provider = "googlebooks"
  · rw [if_pos h1]; exact gbBranch_failWorld env r
  · rw [if_neg h1]
    by_cases h2 : r.provider = "freebooks"
    · rw [if_pos h2]; exact fbBranch_failWorld env r
    · rw [if_neg h2]
      by_cases h3 : r.provider = "openlibrary"
      · rw [if_pos h3]; exact olBranch_failWorld env r
      · rw [if_neg h3]
        by_cases h4 : r.provider = "youtube"
        · rw [if_pos h4]; exact ytBranch_failWorld env r
        · rw [if_neg h4]; exact defaultBranch_failWorld env r

/-- C1 amended: when every upstream call fails, the endpoint still
answers HTTP 200.  On every NON-mixed route the body is exactly the
filtered/sliced static fallback catalog, whose
`totalPages = max(1, ceil(total/pageSize))`; on the mixed route the
per-task catch handlers absorb the failures instead, and the body is the
empty well-formed page with `totalPages = 1`.  In all cases
`totalPages` is an integer ≥ 1. -/
theorem fallback_on_total_failure (env : Env) (raw : RawReq) (p s : Int)
    (hp : (processReq raw).page = .int p) (hs : (processReq raw).pageSize = .int s)
    (_hp1 : 1 ≤ p) (hs1 : 1 ≤ s) :
    (resourcesEndpoint env failWorld raw).status = 200 ∧
    (¬ mixedRoute (processReq raw) →
      (resourcesEndpoint env failWorld raw).body =
        filterAndPaginate fallbackData (processReq raw).toFilterQuery ∧
      (resourcesEndpoint env failWorld raw).body.totalPages =
        jsMax (.int 1)
          (jsDivCeil (resourcesEndpoint env failWorld raw).body.total (.int s))) ∧
    (mixedRoute (processReq raw) →
      (resourcesEndpoint env failWorld raw).body =
        ⟨[], .int 0, .int p, .int s, .int 1⟩) ∧
    (∃ t : Int, (resourcesEndpoint env failWorld raw).body.totalPages = .int t ∧
      1 ≤ t) := by
  have hs' : (processReq raw).toFilterQuery.pageSize = .int s := hs
  by_cases hmix : mixedRoute (processReq raw)
  · have hok : tryProviders env failWorld (processReq raw) =
        .ok (mixedBranch env failWorld (processReq raw)) := by
      unfold tryProviders
      rw [if_pos hmix]
    have hbody : (resourcesEndpoint env failWorld raw).body =
        ⟨[], .int 0, .int p, .int s, .int 1⟩ := by
      show resourcesHandler env failWorld raw = _
      unfold resourcesHandler
      dsimp only
      rw [hok, mixedBranch_failWorld, hp, hs]
    exact ⟨rfl, fun h => absurd hmix h, fun _ => hbody,
      ⟨1, by rw [hbody], le_rfl⟩⟩
  · have herr := tryProviders_failWorld env (processReq raw) hmix
    have hbody : (resourcesEndpoint env failWorld raw).body =
        filterAndPaginate fallbackData (processReq raw).toFilterQuery := by
      show resourcesHandler env failWorld raw = _
      unfold resourcesHandler
      dsimp only
      rw [herr]
    refine ⟨rfl, fun _ => ⟨hbody, ?_⟩, fun h => absurd h hmix, ?_⟩
    · rw [hbody, filterAndPaginate_totalPages, hs']
    · rw [hbody, filterAndPaginate_totalPages, hs', filterAndPaginate_total]
      exact jsMax_one_divCeil_int _ hs1

/-- Witness for C1 amended: the all-failing world on a non-mixed request
(explicit `provider=youtube`, page 1, pageSize 12). -/
theorem fallback_on_total_failure_witness :
    (resourcesEndpoint env0 failWorld rawYtP1).status = 200 :=
  (fallback_on_total_failure env0 rawYtP1 1 12 rfl rfl (by decide) (by decide)).1

/-! Branch invariants for C2 -/

theorem filterAndPaginate_inv (data : List Resource) (q : FilterQuery) (p s : Int)
    (hp : q.page = .int p) (hs : q.pageSize = .int s) (hp1 : 1 ≤ p) (hs1 : 1 ≤ s) :
    InvGood (filterAndPaginate data q) := by
  refine ⟨?_, ⟨s, hs, ?_⟩⟩
  · rw [filterAndPaginate_totalPages, hs, filterAndPaginate_total]
    exact jsMax_one_divCeil_int _ hs1
  · have hitems : (filterAndPaginate data q).items =
        jsSlice (applyFilters q data) (jsMul (jsSub q.page (.int 1)) q.pageSize)
          (jsAdd (jsMul (jsSub q.page (.int 1)) q.pageSize) q.pageSize) := rfl
    rw [hitems, hp, hs, jsSub_int_int, jsMul_int_int, jsAdd_int_int]
    exact jsSlice_int_length _ _ s (mul_nonneg (by omega) (by omega)) (by omega)

theorem mixedBranch_inv (env : Env) (w : World) (r : Req) (s : Int)
    (hs : r.pageSize = .int s) (hs0 : 0 ≤ s) : InvGood (mixedBranch env w r) := by
  refine ⟨⟨1, rfl, le_rfl⟩, ⟨s, hs, ?_⟩⟩
  have hitems : (mixedBranch env w r).items =
      jsSlice (dedupeByUrl (mixedDevItems env w r ++ mixedYtItems env w r ++
        mixedGbItems env w r)) (.int 0) r.pageSize := rfl
  rw [hitems, hs, jsSlice_zero_eq_take _ s hs0]
  have := List.length_take_le s.toNat (dedupeByUrl (mixedDevItems env w r ++
    mixedYtItems env w r ++ mixedGbItems env w r))
  omega

theorem devtoPost_inv (r : Req) (p s : Int) (hp : r.page = .int p)
    (hs : r.pageSize = .int s) (hp1 : 1 ≤ p) (primary : List DevtoArticle)
    (probe : Except Unit (List DevtoArticle))
    (hlen : (primary.length : Int) ≤ s) : InvGood (devtoPost r primary probe) := by
  constructor
  · have h1 : (devtoPost r primary probe).totalPages = jsAdd r.page (.int 1) ∨
        (devtoPost r primary probe).totalPages = r.page := by
      unfold devtoPost
      dsimp only
      split
      · exact Or.inl rfl
      · exact Or.inr rfl
    rcases h1 with h1 | h1 <;> rw [h1, hp]
    · rw [jsAdd_int_int]
      exact ⟨p + 1, rfl, by omega⟩
    · exact ⟨p, rfl, by omega⟩
  · refine ⟨s, hs, ?_⟩
    have hitems : (devtoPost r primary probe).items =
        applyTypeFilter r.type (primary.map mapDevToArticleToResource) := rfl
    rw [hitems]
    have h2 := applyTypeFilter_length_le r.type (primary.map mapDevToArticleToResource)
    rw [List.length_map] at h2
    omega

theorem gbBranch_inv (env : Env) (w : World) (r : Req) (s : Int)
    (hs : r.pageSize = .int s) (hw : RespectsLimits w) :
    ∀ pg, gbBranch env w r = .ok pg → InvGood pg := by
  intro pg h
  rw [gbBranch, hs, jsMin_int_int, jsMax_int_int] at h
  split at h
  · nomatch h
  · rename_i resp heq
    injection h with h'
    subst h'
    obtain ⟨hlen, hints⟩ := hw.gbooks _ _ _ _ _ _ heq
    obtain ⟨m, hm⟩ := jsNumField_int hints
    constructor
    · show ∃ t, jsMax (.int 1) (jsDivCeil (jsNumField resp.totalItems)
        (.int (max 1 (min 40 s)))) = .int t ∧ 1 ≤ t
      rw [hm]
      exact jsMax_one_divCeil_int m (le_max_left _ _)
    · refine ⟨max 1 (min 40 s), rfl, ?_⟩
      show ((applyTypeFilter r.type ((resp.items.getD []).map mapGbItem)).length : Int) ≤ _
      have h2 := applyTypeFilter_length_le r.type ((resp.items.getD []).map mapGbItem)
      rw [List.length_map] at h2
      omega

theorem olBranch_inv (env : Env) (w : World) (r : Req) (p s : Int)
    (_hp : r.page = .int p) (hs : r.pageSize = .int s) (hw : RespectsLimits w) :
    ∀ pg, olBranch env w r = .ok pg → InvGood pg := by
  intro pg h
  rw [olBranch, hs, jsMin_int_int, jsMax_int_int] at h
  split at h
  · nomatch h
  · rename_i resp heq
    injection h with h'
    subst h'
    obtain ⟨hlen, hints⟩ := hw.openlib _ _ _ _ heq
    obtain ⟨m, hm⟩ := jsNumField_int hints
    have hne : max 1 (min 50 s) ≠ 0 := by
      have := le_max_left 1 (min 50 s); omega
    have htp : jsMax (.int 1) (jsDivCeil (jsNumField resp.numFound)
        (.int (max 1 (min 50 s)))) = .int (max 1 (-((-m).fdiv (max 1 (min 50 s))))) := by
      rw [hm, jsDivCeil_int_int _ hne, jsMax_int_int]
    constructor
    · show ∃ t, (if (jsFinite (jsMax (.int 1) (jsDivCeil (jsNumField resp.numFound)
          (.int (max 1 (min 50 s))))) &&
          jsGt (jsMax (.int 1) (jsDivCeil (jsNumField resp.numFound)
          (.int (max 1 (min 50 s))))) (.int 0)) = true
        then jsMax (.int 1) (jsDivCeil (jsNumField resp.numFound)
          (.int (max 1 (min 50 s))))
        else r.page) = .int t ∧ 1 ≤ t
      rw [htp]
      have hgt : jsGt (.int (max 1 (-((-m).fdiv (max 1 (min 50 s)))))) (.int 0) = true := by
        have h0 : (0 : Int) < max 1 (-((-m).fdiv (max 1 (min 50 s)))) := by
          have := le_max_left 1 (-((-m).fdiv (max 1 (min 50 s)))); omega
        simp [jsGt, h0]
      rw [show jsFinite (JSNum.int (max 1 (-((-m).fdiv (max 1 (min 50 s)))))) = true
        from rfl, hgt]
      exact ⟨_, rfl, le_max_left _ _⟩
    · refine ⟨max 1 (min 50 s), rfl, ?_⟩
      show ((applyTypeFilter r.type ((resp.docs.getD []).map mapOlDoc)).length : Int) ≤ _
      have h2 := applyTypeFilter_length_le r.type ((resp.docs.getD []).map mapOlDoc)
      rw [List.length_map] at h2
      omega

theorem ytRecord_inv (r : Req) (p s : Int) (hp : r.page = .int p) (hp1 : 1 ≤ p)
    (hs1 : 1 ≤ s) (resp : YtResp) (total : JSNum)
    (hlen : ((resp.items.getD []).length : Int) ≤ max 1 (min 50 s)) :
    InvGood
      { items := applyTypeFilter r.type (mapYtItems (resp.items.getD []))
      , total := total
      , page := r.page
      , pageSize := .int s
      , totalPages := if truthyOS resp.nextPageToken = true
          then jsAdd r.page (.int 1) else r.page } := by
  constructor
  · show ∃ t, (if truthyOS resp.nextPageToken = true
        then jsAdd r.page (.int 1) else r.page) = .int t ∧ 1 ≤ t
    rw [hp]
    split
    · rw [jsAdd_int_int]
      exact ⟨p + 1, rfl, by omega⟩
    · exact ⟨p, rfl, by omega⟩
  · refine ⟨s, rfl, ?_⟩
    show ((applyTypeFilter r.type (mapYtItems (resp.items.getD []))).length : Int) ≤ s
    have h2 := applyTypeFilter_length_le r.type (mapYtItems (resp.items.getD []))
    have h3 : (mapYtItems (resp.items.getD [])).length ≤
        (resp.items.getD []).length := by
      unfold mapYtItems
      rw [List.length_map]
      exact List.length_filter_le _ _
    omega

theorem ytBranch_inv (env : Env) (w : World) (r : Req) (p s : Int)
    (hp : r.page = .int p) (hs : r.pageSize = .int s) (hp1 : 1 ≤ p) (hs1 : 1 ≤ s)
    (hw : RespectsLimits w) :
    ∀ pg, ytBranch env w r = .ok pg → InvGood pg := by
  intro pg h
  rw [ytBranch, hs, jsMin_int_int, jsMax_int_int] at h
  split at h
  · dsimp only at h
    split at h
    · nomatch h
    · rename_i tok heqwalk
      split at h
      · nomatch h
      · rename_i resp heq
        injection h with h'
        subst h'
        exact ytRecord_inv r p s hp hp1 hs1 resp _ (hw.yt _ _ _ _ heq)
  · nomatch h

theorem defaultBranch_inv (env : Env) (w : World) (r : Req) (p s : Int)
    (hp : r.page = .int p) (hs : r.pageSize = .int s) (hp1 : 1 ≤ p)
    (hw : RespectsLimits w) :
    ∀ pg, defaultBranch env w r = .ok pg → InvGood pg := by
  intro pg h
  rw [defaultBranch, hs] at h
  split at h
  · split at h
    · nomatch h
    · rename_i resp heq
      injection h with h'
      subst h'
      exact devtoPost_inv r p s hp hs hp1 _ _ (hw.custom _ resp s heq hs)
  · split at h
    · split at h
      · nomatch h
      · rename_i resp heq
        injection h with h'
        subst h'
        exact devtoPost_inv r p s hp hs hp1 _ _ (hw.devtoSearch _ _ _ _ _ heq)
    · split at h
      · nomatch h
      · rename_i resp heq
        injection h with h'
        subst h'
        exact devtoPost_inv r p s hp hs hp1 _ _ (hw.devtoList _ _ _ _ _ heq)

/-- C2 amended: for integral `page ≥ 1` and `pageSize ≥ 1`, against any
upstream world that returns no more items than requested (and integral
count fields), every branch OTHER THAN freebooks — mixed, googlebooks,
openlibrary, youtube, the default article feed, and the failure fallback
— produces a PaginatedResult with integral `totalPages ≥ 1` and
`items.length ≤ pageSize`, where `pageSize` is the response's own
pageSize field.  (The freebooks branch is the exception the
counterexample exhibits: it returns the upstream page unsliced.) -/
theorem paginated_result_invariants (env : Env) (w : World) (raw : RawReq)
    (p s : Int)
    (hp : (processReq raw).page = .int p) (hs : (processReq raw).pageSize = .int s)
    (hp1 : 1 ≤ p) (hs1 : 1 ≤ s)
    (hprov : ¬ (processReq raw).provider = "freebooks")
    (hw : RespectsLimits w) :
    InvGood (resourcesHandler env w raw) := by
  have hfb : InvGood (filterAndPaginate fallbackData (processReq raw).toFilterQuery) :=
    filterAndPaginate_inv _ _ p s hp hs hp1 hs1
  unfold resourcesHandler
  dsimp only
  unfold tryProviders
  by_cases hmix : mixedRoute (processReq raw)
  · rw [if_pos hmix]
    exact mixedBranch_inv env w _ s hs (by omega)
  · rw [if_neg hmix]
    by_cases h1 : (processReq raw).provider = "googlebooks"
    · rw [if_pos h1]
      cases hb : gbBranch env w (processReq raw) with
      | error e => exact hfb
      | ok pg => exact gbBranch_inv env w _ s hs hw pg hb
    · rw [if_neg h1, if_neg hprov]
      by_cases h3 : (processReq raw).provider = "openlibrary"
      · rw [if_pos h3]
        cases hb : olBranch env w (processReq raw) with
        | error e => exact hfb
        | ok pg => exact olBranch_inv env w _ p s hp hs hw pg hb
      · rw [if_neg h3]
        by_cases h4 : (processReq raw).provider = "youtube"
        · rw [if_pos h4]
          cases hb : ytBranch env w (processReq raw) with
          | error e => exact hfb
          | ok pg => exact ytBranch_inv env w _ p s hp hs hp1 hs1 hw pg hb
        · rw [if_neg h4]
          cases hb : defaultBranch env w (processReq raw) with
          | error e => exact hfb
          | ok pg => exact defaultBranch_inv env w _ p s hp hs hp1 hw pg hb

/-- Witness for C2 amended: the all-failing world (vacuously honest) on
the parameterless request. -/
theorem paginated_result_invariants_witness :
    InvGood (resourcesHandler env0 failWorld rawMixed) := by
  have hw : RespectsLimits failWorld := by
    constructor <;> intros <;> simp_all [failWorld]
  exact paginated_result_invariants env0 failWorld rawMixed 1 12 rfl rfl
    (by decide) (by decide) (by decide) hw

end DevHub
